import Mathlib

/-!
Shallow embedding of the dagstore control plane (src/dagstore_control.go):
the event-loop switch over shard operations (the body of DAGStore.control)
and the consumeNext channel policy. Collaborator calls whose code is outside
the given sources (StatFullIndex, shardFromPersistentState, store.Delete,
Shard.persist) are modelled as oracle inputs gathered in an Env record, and
every side effect the loop performs (result dispatches, internal enqueues,
spawned workers, store deletes, persistence writes, traces) is recorded in
an explicit effect list, in program order.
-/

namespace DagStore

/-- Operation tags of the event loop, mirroring the OpType constant block of
dagstore_control.go (iota order: Register, Initialize, MakeAvailable,
Destroy, Acquire, Fail, Recover). -/
inductive OpType
  | OpShardRegister
  | OpShardInitialize
  | OpShardMakeAvailable
  | OpShardDestroy
  | OpShardAcquire
  | OpShardFail
  | OpShardRecover
  deriving DecidableEq, Repr

/-- Numeric value of each tag in the Go const block (iota). -/
def OpType.code : OpType → Nat
  | .OpShardRegister => 0
  | .OpShardInitialize => 1
  | .OpShardMakeAvailable => 2
  | .OpShardDestroy => 3
  | .OpShardAcquire => 4
  | .OpShardFail => 5
  | .OpShardRecover => 6

/-- Decoding of a raw integer tag back to an OpType; the event loop switches
on the integer, and its default branch panics exactly when the integer is
none of the seven codes. -/
def decodeOp : Nat → Option OpType
  | 0 => some .OpShardRegister
  | 1 => some .OpShardInitialize
  | 2 => some .OpShardMakeAvailable
  | 3 => some .OpShardDestroy
  | 4 => some .OpShardAcquire
  | 5 => some .OpShardFail
  | 6 => some .OpShardRecover
  | _ => none

/-- Modelled from the spec: the shard lifecycle states (spec section 3); the
source file under scrutiny only compares against ShardStateNew,
ShardStateAvailable and ShardStateErrored, the remaining states are carried
opaquely. -/
inductive ShardState
  | ShardStateNew
  | ShardStateInitializing
  | ShardStateAvailable
  | ShardStateServingNew
  | ShardStateErrored
  | ShardStateDestroyed
  deriving DecidableEq, Repr

/-- Go error values as the control plane builds and inspects them: opaque
base errors, wrapped errors (fmt.Errorf with a message prefix and a percent-w
verb), and the two sentinel errors the file mentions
(ErrShardInitializationFailed, ds.ErrNotFound). -/
inductive GoErr
  | base (msg : String)
  | wrap (msg : String) (cause : GoErr)
  | errShardInitializationFailed
  | errNotFound
  deriving DecidableEq, Repr

/-- Embedding of errors.Is: target matching through the wrap chain. -/
def GoErr.is : GoErr → GoErr → Bool
  | .wrap m c, t => (GoErr.wrap m c == t) || GoErr.is c t
  | e, t => e == t

/-- Embedding of fmt.Errorf with a message and a percent-w verb applied to a
possibly nil error: with a nil argument no cause is wrapped. -/
def wrapO (msg : String) : Option GoErr → GoErr
  | some e => GoErr.wrap msg e
  | none => GoErr.base msg

/-- Contexts, by provenance: the nil context (a task field left unset), the
background context, and caller-supplied contexts told apart by a tag. The
DAGStore record below carries the loop-global context d.ctx as a field. -/
inductive Ctx
  | nil
  | background
  | caller (tag : Nat)
  deriving DecidableEq, Repr

/-- Waiter: a caller context plus a reply channel (none models a nil outCh,
as in the synthetic recovery waiter the loop enqueues). -/
structure Waiter where
  ctx : Ctx
  outCh : Option Nat
  deriving DecidableEq, Repr

/-- ShardResult: a key and an optional error. -/
structure ShardResult where
  Key : String
  Error : Option GoErr
  deriving DecidableEq, Repr

/-- In-memory shard record: the fields of the Go Shard struct the control
file reads or writes (the mutex is implicit: one whole switch step happens
under it). -/
structure Shard where
  key : String
  state : ShardState
  err : Option GoErr
  lazy : Bool
  mount : Nat
  wRegister : Option Waiter
  wRecover : Option Waiter
  wAcquire : List Waiter
  recoverOnNextAcquire : Bool
  deriving DecidableEq, Repr

/-- Task consumed by the event loop: its op tag, context, optional waiter,
optional acquire output channel and optional error (for OpShardFail). The
target shard is passed to the step function separately. -/
structure Task where
  op : OpType
  ctx : Ctx
  waiter : Option Waiter
  outCh : Option Nat
  err : Option GoErr
  deriving DecidableEq, Repr

/-- Modelled from the spec: the persisted portion of a shard record that
shardFromPersistentState (not among the given sources) reloads into the
in-memory record; per spec section 4.2 the reload rewrites the persisted
fields (state, error, lazy flag, mount) and per section 3 the waiter sets
are in-memory only. -/
structure Persisted where
  state : ShardState
  err : Option GoErr
  lazy : Bool
  mount : Nat
  deriving DecidableEq, Repr

/-- Modelled from the spec: applying a successful reload of persisted fields
to the in-memory record, leaving key, waiter sets and the
recoverOnNextAcquire flag untouched. -/
def applyReload (s : Shard) (p : Persisted) : Shard :=
  { s with state := p.state, err := p.err, lazy := p.lazy, mount := p.mount }

/-- Oracle answers of the external collaborators for one loop iteration:
the StatFullIndex call (its error and the Exists bit of the returned stat),
the shardFromPersistentState reload (its error, and the reloaded fields used
when the error is none), the metadata-store Delete error and the
persistence-write error (the latter is logged by the loop and never read,
reflecting its log-only handling). -/
structure Env where
  statErr : Option GoErr
  statExists : Bool
  reloadErr : Option GoErr
  reloaded : Persisted
  deleteErr : Option GoErr
  persistErr : Option GoErr
  deriving DecidableEq, Repr

/-- Configuration of the DAGStore visible to the control file: the loop
global context d.ctx and whether the optional failure and trace channels are
configured. -/
structure DAGStore where
  ctx : Ctx
  failureCh : Bool
  traceCh : Bool
  deriving DecidableEq, Repr

/-- Trace record sent after a transition: key, op, and the post-transition
state and error. -/
structure Trace where
  Key : String
  Op : OpType
  afterState : ShardState
  afterError : Option GoErr
  deriving DecidableEq, Repr

/-- Side effects one loop iteration performs, in program order: a result
dispatched to waiters, a task queued on the internal channel, an initializer
worker spawned with a context, an acquirer worker spawned, a metadata-store
delete, a persistence write of the post-transition record, a failure
notification dispatch, and a trace send. -/
inductive Effect
  | dispatch (res : ShardResult) (ws : List Waiter)
  | enqueueInternal (t : Task)
  | spawnInitialize (ctx : Ctx)
  | spawnAcquire (ctx : Ctx) (w : Waiter)
  | deleteStore (key : String)
  | persistStore (s : Shard)
  | dispatchFailure (res : ShardResult)
  | traceSend (t : Trace)
  deriving DecidableEq, Repr

/-- Constructor shorthand for a ShardResult literal, fields in order. -/
def mkResult (key : String) (e : Option GoErr) : ShardResult := ⟨key, e⟩

/-- Constructor shorthand for a Task literal, fields in declaration order
(op, ctx, waiter, outCh, err). -/
def mkTask (op : OpType) (ctx : Ctx) (w : Option Waiter) (outCh : Option Nat)
    (err : Option GoErr) : Task :=
  ⟨op, ctx, w, outCh, err⟩

/-- Modelled from the spec: failShard (not among the given sources) builds
the formatted error wrapping ErrShardInitializationFailed and queues an
OpShardFail task for the shard on the given channel, touching no record
field itself (spec section 7: a precondition violation is surfaced as a
synthesized Fail). -/
def failShardTask : Task :=
  mkTask OpType.OpShardFail Ctx.nil none none
    (some (GoErr.wrap "expected shard to be in the new state"
      GoErr.errShardInitializationFailed))

/-- The synthetic waiter the loop attaches to an internally queued
OpShardRecover: the loop global context and a nil output channel. -/
def recoverWaiter (d : DAGStore) : Waiter :=
  { ctx := d.ctx, outCh := none }

/-- One pass of the event-loop switch of DAGStore.control (dagstore_control.go
lines 59 to 266) on a single task and its target shard: the updated record,
the persist flag as left by the branch, and the side effects in program
order. -/
def controlSwitch (d : DAGStore) (env : Env) (tsk : Task) (s : Shard) :
    Shard × Bool × List Effect :=
  match tsk.op with
  | .OpShardRegister =>
    if s.state ≠ ShardState.ShardStateNew then
      (s, true, [Effect.enqueueInternal failShardTask])
    else if s.lazy then
      match tsk.waiter with
      | some w => (s, true, [Effect.dispatch (mkResult s.key none) [w]])
      | none => (s, true, [])
    else
      ({ s with wRegister := tsk.waiter }, true,
        [Effect.enqueueInternal
          (mkTask OpType.OpShardInitialize Ctx.nil tsk.waiter none none)])
  | .OpShardInitialize =>
    if env.statErr = none ∧ env.statExists then
      (s, true, [Effect.enqueueInternal
        (mkTask OpType.OpShardMakeAvailable Ctx.nil none none none)])
    else
      (s, true, [Effect.spawnInitialize tsk.ctx])
  | .OpShardMakeAvailable =>
    let s1 := { s with state := ShardState.ShardStateAvailable, err := none }
    let eReg := match s1.wRegister with
      | some w => [Effect.dispatch (mkResult s1.key none) [w]]
      | none => []
    let eRec := match s1.wRecover with
      | some w => [Effect.dispatch (mkResult s1.key none) [w]]
      | none => []
    let eAcq := s1.wAcquire.map (fun w => Effect.spawnAcquire w.ctx w)
    ({ s1 with wRegister := none, wRecover := none, wAcquire := [] }, true,
      eReg ++ eRec ++ eAcq)
  | .OpShardAcquire =>
    match env.reloadErr with
    | some e =>
      (s, false,
        [Effect.dispatch
          (mkResult s.key (some (GoErr.wrap "could not acquire shard" e)))
          tsk.waiter.toList])
    | none =>
      let s1 := applyReload s env.reloaded
      let w : Waiter := { ctx := tsk.ctx, outCh := tsk.outCh }
      if s1.state = ShardState.ShardStateErrored then
        if s1.recoverOnNextAcquire then
          ({ s1 with wAcquire := s1.wAcquire ++ [w], recoverOnNextAcquire := false },
            true,
            [Effect.enqueueInternal
              (mkTask OpType.OpShardRecover Ctx.nil (some (recoverWaiter d))
                none none)])
        else
          (s1, true,
            [Effect.dispatch
              (mkResult s1.key (some (wrapO "shard is in errored state" s1.err)))
              [w]])
      else if s1.state ≠ ShardState.ShardStateAvailable then
        let s2 := { s1 with wAcquire := s1.wAcquire ++ [w] }
        if s1.state = ShardState.ShardStateNew then
          let w2 := tsk.waiter.getD { ctx := Ctx.nil, outCh := none }
          (s2, true,
            [Effect.enqueueInternal
              (mkTask OpType.OpShardInitialize Ctx.nil
                (some { w2 with ctx := Ctx.background }) none none)])
        else
          (s2, true, [])
      else
        (s1, true, [Effect.spawnAcquire tsk.ctx w])
  | .OpShardFail =>
    let s1 := { s with state := ShardState.ShardStateErrored, err := tsk.err }
    let eReg := match s.wRegister with
      | some w =>
        [Effect.dispatch
          (mkResult s.key (some (wrapO "failed to register shard" tsk.err))) [w]]
      | none => []
    let eRec := match s.wRecover with
      | some w =>
        [Effect.dispatch
          (mkResult s.key (some (wrapO "failed to recover shard" tsk.err))) [w]]
      | none => []
    let eAcq := if s.wAcquire.isEmpty then [] else
      [Effect.dispatch
        (mkResult s.key (some (wrapO "failed to acquire shard" tsk.err)))
        s.wAcquire]
    let eNotify := if d.failureCh then
      [Effect.dispatchFailure (mkResult s.key tsk.err)] else []
    ({ s1 with wRegister := none, wRecover := none, wAcquire := [] }, true,
      eReg ++ eRec ++ eAcq ++ eNotify)
  | .OpShardRecover =>
    match env.reloadErr with
    | some e =>
      (s, false,
        [Effect.dispatch
          (mkResult s.key (some (GoErr.wrap "could not recover shard" e)))
          tsk.waiter.toList])
    | none =>
      let s1 := applyReload s env.reloaded
      if s1.state ≠ ShardState.ShardStateErrored then
        (s1, true,
          [Effect.dispatch
            (mkResult s1.key (some (GoErr.base
              "refused to recover shard in state other than errored")))
            tsk.waiter.toList])
      else
        ({ s1 with wRecover := tsk.waiter }, true, [Effect.spawnInitialize tsk.ctx])
  | .OpShardDestroy =>
    match env.deleteErr with
    | some e =>
      if GoErr.is e GoErr.errNotFound then
        (s, false, [Effect.deleteStore s.key])
      else
        (s, false,
          [Effect.deleteStore s.key,
            Effect.dispatch
              (mkResult s.key (some (GoErr.wrap "failed to delete shard" e)))
              tsk.waiter.toList])
    | none => (s, false, [Effect.deleteStore s.key])

/-- One full iteration of the event loop after consuming a task: the switch,
then (lines 268 to 288) the persistence write when the persist flag survived
the branch (a write error is logged and changes nothing), then the trace
send when a trace channel is configured. -/
def controlIter (d : DAGStore) (env : Env) (tsk : Task) (s : Shard) :
    Shard × List Effect :=
  let r := controlSwitch d env tsk s
  let s1 := r.1
  let effs := r.2.2 ++ (if r.2.1 then [Effect.persistStore s1] else []) ++
    (if d.traceCh then [Effect.traceSend ⟨s1.key, tsk.op, s1.state, s1.err⟩]
     else [])
  (s1, effs)

/-- The event-loop switch as the Go code runs it, on the raw integer tag:
none models the panic of the default branch. -/
def controlSwitchRaw (d : DAGStore) (env : Env) (code : Nat) (ctx : Ctx)
    (w : Option Waiter) (outCh : Option Nat) (e : Option GoErr) (s : Shard) :
    Option (Shard × Bool × List Effect) :=
  (decodeOp code).map (fun op =>
    controlSwitch d env (mkTask op ctx w outCh e) s)

/-- Snapshot of the three input channels and the shutdown signal as
consumeNext observes them. -/
structure Chans where
  internalCh : List Task
  externalCh : List Task
  completionCh : List Task
  ctxDone : Bool
  deriving DecidableEq, Repr

/-- Which channel a consumed task came from. -/
inductive ChanTag
  | internal
  | external
  | completion
  deriving DecidableEq, Repr

/-- Outcome of consumeNext: a task tagged with its source channel, or the
cancellation error of the shutdown context. -/
inductive ConsumeResult
  | got (tag : ChanTag) (t : Task)
  | cancelErr
  deriving DecidableEq, Repr

/-- Embedding of consumeNext (dagstore_control.go lines 296 to 313) as a
relation on a channel snapshot, keeping the nondeterminism of a Go select
among ready cases: the first, non-blocking select returns the head of the
internal channel or the cancellation error if the shutdown context is done;
its default branch falls to the second, blocking select over the external
and completion channels and shutdown only when the internal channel is empty
and the context not yet done. -/
inductive ConsumeNext : Chans → ConsumeResult → Prop
  | internalReady (c : Chans) (t : Task) (rest : List Task)
      (h : c.internalCh = t :: rest) :
      ConsumeNext c (ConsumeResult.got ChanTag.internal t)
  | doneFirst (c : Chans) (h : c.ctxDone = true) :
      ConsumeNext c ConsumeResult.cancelErr
  | externalReady (c : Chans) (t : Task) (rest : List Task)
      (hInt : c.internalCh = []) (hDone : c.ctxDone = false)
      (h : c.externalCh = t :: rest) :
      ConsumeNext c (ConsumeResult.got ChanTag.external t)
  | completionReady (c : Chans) (t : Task) (rest : List Task)
      (hInt : c.internalCh = []) (hDone : c.ctxDone = false)
      (h : c.completionCh = t :: rest) :
      ConsumeNext c (ConsumeResult.got ChanTag.completion t)

/-- Invariant 2 of the spec (section 8): the error field is set exactly in
the errored state. -/
def errInv (s : Shard) : Prop :=
  s.err ≠ none ↔ s.state = ShardState.ShardStateErrored

instance (s : Shard) : Decidable (errInv s) := by
  unfold errInv
  infer_instance

/-- Invariant 2 of the spec read on the persisted fields a reload returns:
persisted records are post-transition snapshots, so they satisfy it. -/
def errInvP (p : Persisted) : Prop :=
  p.err ≠ none ↔ p.state = ShardState.ShardStateErrored

instance (p : Persisted) : Decidable (errInvP p) := by
  unfold errInvP
  infer_instance

/-- C3: after any OpShardMakeAvailable transition the state is Available and
the error nil regardless of the prior state, a parked registration or
recovery waiter received the success result with the key and the field is
cleared, and the acquire queue is cleared with one acquire worker spawned
per queued waiter, in the FIFO order of the queue. -/
theorem opShardMakeAvailable_spec (d : DAGStore) (env : Env) (tsk : Task)
    (s : Shard) (hop : tsk.op = OpType.OpShardMakeAvailable) :
    controlSwitch d env tsk s =
      ({ s with state := ShardState.ShardStateAvailable, err := none,
                wRegister := none, wRecover := none, wAcquire := [] },
        true,
        (match s.wRegister with
         | some w => [Effect.dispatch (mkResult s.key none) [w]]
         | none => []) ++
        (match s.wRecover with
         | some w => [Effect.dispatch (mkResult s.key none) [w]]
         | none => []) ++
        s.wAcquire.map (fun w => Effect.spawnAcquire w.ctx w)) := by
  obtain ⟨op, c, w, o, e⟩ := tsk
  cases hop
  rfl

theorem opShardMakeAvailable_spec_witness :
    (mkTask OpType.OpShardMakeAvailable Ctx.nil none none none).op =
        OpType.OpShardMakeAvailable ∧
      controlSwitch ⟨Ctx.caller 0, false, false⟩
          ⟨none, false, none, ⟨ShardState.ShardStateNew, none, false, 0⟩, none, none⟩
          (mkTask OpType.OpShardMakeAvailable Ctx.nil none none none)
          ⟨"k", ShardState.ShardStateNew, none, false, 0,
            some ⟨Ctx.caller 1, some 1⟩, none, [⟨Ctx.caller 2, some 2⟩], false⟩ =
        ({ key := "k", state := ShardState.ShardStateAvailable, err := none,
           lazy := false, mount := 0, wRegister := none, wRecover := none,
           wAcquire := [], recoverOnNextAcquire := false },
          true,
          [Effect.dispatch (mkResult "k" none) [⟨Ctx.caller 1, some 1⟩],
           Effect.spawnAcquire (Ctx.caller 2) ⟨Ctx.caller 2, some 2⟩]) :=
  ⟨rfl,
    opShardMakeAvailable_spec ⟨Ctx.caller 0, false, false⟩
      ⟨none, false, none, ⟨ShardState.ShardStateNew, none, false, 0⟩, none, none⟩
      (mkTask OpType.OpShardMakeAvailable Ctx.nil none none none)
      ⟨"k", ShardState.ShardStateNew, none, false, 0,
        some ⟨Ctx.caller 1, some 1⟩, none, [⟨Ctx.caller 2, some 2⟩], false⟩
      rfl⟩

/-- C4: after any OpShardFail transition the three waiter sets are empty,
and each waiter that was present received one error result wrapping the
task error under the matching message prefix (failed to register shard,
failed to recover shard, failed to acquire shard); when a failure channel
is configured a failure notification is dispatched as well. -/
theorem opShardFail_spec (d : DAGStore) (env : Env) (tsk : Task) (s : Shard)
    (e0 : GoErr) (hop : tsk.op = OpType.OpShardFail)
    (herr : tsk.err = some e0) :
    controlSwitch d env tsk s =
      ({ s with state := ShardState.ShardStateErrored, err := some e0,
                wRegister := none, wRecover := none, wAcquire := [] },
        true,
        (match s.wRegister with
         | some w =>
           [Effect.dispatch
             (mkResult s.key (some (GoErr.wrap "failed to register shard" e0)))
             [w]]
         | none => []) ++
        (match s.wRecover with
         | some w =>
           [Effect.dispatch
             (mkResult s.key (some (GoErr.wrap "failed to recover shard" e0)))
             [w]]
         | none => []) ++
        (if s.wAcquire.isEmpty then [] else
          [Effect.dispatch
            (mkResult s.key (some (GoErr.wrap "failed to acquire shard" e0)))
            s.wAcquire]) ++
        (if d.failureCh then [Effect.dispatchFailure (mkResult s.key (some e0))]
         else [])) := by
  obtain ⟨op, c, w, o, e⟩ := tsk
  cases hop
  cases herr
  rfl

theorem opShardFail_spec_witness :
    (mkTask OpType.OpShardFail Ctx.nil none none (some (GoErr.base "boom"))).op =
        OpType.OpShardFail ∧
      (mkTask OpType.OpShardFail Ctx.nil none none (some (GoErr.base "boom"))).err =
        some (GoErr.base "boom") ∧
      controlSwitch ⟨Ctx.caller 0, true, false⟩
          ⟨none, false, none, ⟨ShardState.ShardStateNew, none, false, 0⟩, none, none⟩
          (mkTask OpType.OpShardFail Ctx.nil none none (some (GoErr.base "boom")))
          ⟨"k", ShardState.ShardStateNew, none, false, 0,
            some ⟨Ctx.caller 1, some 1⟩, some ⟨Ctx.caller 2, some 2⟩,
            [⟨Ctx.caller 3, some 3⟩], false⟩ =
        ({ key := "k", state := ShardState.ShardStateErrored,
           err := some (GoErr.base "boom"), lazy := false, mount := 0,
           wRegister := none, wRecover := none, wAcquire := [],
           recoverOnNextAcquire := false },
          true,
          [Effect.dispatch
            (mkResult "k"
              (some (GoErr.wrap "failed to register shard" (GoErr.base "boom"))))
            [⟨Ctx.caller 1, some 1⟩],
           Effect.dispatch
            (mkResult "k"
              (some (GoErr.wrap "failed to recover shard" (GoErr.base "boom"))))
            [⟨Ctx.caller 2, some 2⟩],
           Effect.dispatch
            (mkResult "k"
              (some (GoErr.wrap "failed to acquire shard" (GoErr.base "boom"))))
            [⟨Ctx.caller 3, some 3⟩],
           Effect.dispatchFailure (mkResult "k" (some (GoErr.base "boom")))]) :=
  ⟨rfl, rfl,
    opShardFail_spec ⟨Ctx.caller 0, true, false⟩
      ⟨none, false, none, ⟨ShardState.ShardStateNew, none, false, 0⟩, none, none⟩
      (mkTask OpType.OpShardFail Ctx.nil none none (some (GoErr.base "boom")))
      ⟨"k", ShardState.ShardStateNew, none, false, 0,
        some ⟨Ctx.caller 1, some 1⟩, some ⟨Ctx.caller 2, some 2⟩,
        [⟨Ctx.caller 3, some 3⟩], false⟩
      (GoErr.base "boom") rfl rfl⟩

/-- C9: during OpShardInitialize an error from StatFullIndex is handled
exactly like the absence of a full index: the initializer worker is spawned
with the task context, the record is untouched and nothing is dispatched;
the short circuit that queues an internal OpShardMakeAvailable happens
exactly when StatFullIndex returns no error and reports the index as
existing. -/
theorem opShardInitialize_stat_error_spec (d : DAGStore) (env : Env)
    (tsk : Task) (s : Shard) (e : GoErr)
    (hop : tsk.op = OpType.OpShardInitialize) (he : env.statErr = some e) :
    controlSwitch d env tsk s = (s, true, [Effect.spawnInitialize tsk.ctx]) ∧
      ∀ env2 : Env,
        (controlSwitch d env2 tsk s =
          (s, true,
            [Effect.enqueueInternal
              (mkTask OpType.OpShardMakeAvailable Ctx.nil none none none)]) ↔
          (env2.statErr = none ∧ env2.statExists = true)) := by
  obtain ⟨op, c, w, o, er⟩ := tsk
  cases hop
  constructor
  · simp [controlSwitch, he]
  · intro env2
    rcases h2 : env2.statErr with _ | e2 <;> rcases hx : env2.statExists <;>
      simp [controlSwitch, h2, hx]

theorem opShardInitialize_stat_error_spec_witness :
    (mkTask OpType.OpShardInitialize (Ctx.caller 7) none none none).op =
        OpType.OpShardInitialize ∧
      (⟨some (GoErr.base "statfail"), false, none,
          ⟨ShardState.ShardStateNew, none, false, 0⟩, none, none⟩ : Env).statErr =
        some (GoErr.base "statfail") ∧
      controlSwitch ⟨Ctx.caller 0, false, false⟩
          ⟨some (GoErr.base "statfail"), false, none,
            ⟨ShardState.ShardStateNew, none, false, 0⟩, none, none⟩
          (mkTask OpType.OpShardInitialize (Ctx.caller 7) none none none)
          ⟨"k", ShardState.ShardStateNew, none, false, 0, none, none, [], false⟩ =
        (⟨"k", ShardState.ShardStateNew, none, false, 0, none, none, [], false⟩,
          true, [Effect.spawnInitialize (Ctx.caller 7)]) :=
  ⟨rfl, rfl,
    (opShardInitialize_stat_error_spec ⟨Ctx.caller 0, false, false⟩
      ⟨some (GoErr.base "statfail"), false, none,
        ⟨ShardState.ShardStateNew, none, false, 0⟩, none, none⟩
      (mkTask OpType.OpShardInitialize (Ctx.caller 7) none none none)
      ⟨"k", ShardState.ShardStateNew, none, false, 0, none, none, [], false⟩
      (GoErr.base "statfail") rfl rfl).1⟩

/-- C10: for every task whose op tag is one of the seven defined OpType
codes, decoding succeeds and the raw event-loop switch returns a result,
so the panic of the default branch is unreachable. -/
theorem control_default_panic_unreachable (op : OpType) (d : DAGStore)
    (env : Env) (ctx : Ctx) (w : Option Waiter) (o : Option Nat)
    (e : Option GoErr) (s : Shard) :
    controlSwitchRaw d env (OpType.code op) ctx w o e s =
      some (controlSwitch d env (mkTask op ctx w o e) s) := by
  cases op <;> rfl

/-- C7: an OpShardAcquire finding the shard Errored with the
recoverOnNextAcquire flag set appends the acquirer waiter to the acquire
queue, clears the flag, and queues one internal OpShardRecover task whose
waiter carries the loop global context d.ctx (not the acquirer context);
no result is dispatched to the acquirer in this step. -/
theorem opShardAcquire_recover_flag_spec (d : DAGStore) (env : Env)
    (tsk : Task) (s : Shard) (hop : tsk.op = OpType.OpShardAcquire)
    (hrl : env.reloadErr = none)
    (hst : env.reloaded.state = ShardState.ShardStateErrored)
    (hfl : s.recoverOnNextAcquire = true) :
    controlSwitch d env tsk s =
      ({ applyReload s env.reloaded with
          wAcquire := s.wAcquire ++ [⟨tsk.ctx, tsk.outCh⟩],
          recoverOnNextAcquire := false },
        true,
        [Effect.enqueueInternal
          (mkTask OpType.OpShardRecover Ctx.nil (some ⟨d.ctx, none⟩)
            none none)]) ∧
      (recoverWaiter d).ctx = d.ctx ∧
      (∀ res ws, Effect.dispatch res ws ∉ (controlSwitch d env tsk s).2.2) := by
  obtain ⟨op, c, w, o, er⟩ := tsk
  cases hop
  refine ⟨?_, rfl, ?_⟩
  · simp only [controlSwitch, hrl, applyReload, hst, hfl]
    rfl
  · intro res ws
    simp [controlSwitch, hrl, applyReload, hst, hfl]

theorem opShardAcquire_recover_flag_spec_witness :
    (mkTask OpType.OpShardAcquire (Ctx.caller 5) (some ⟨Ctx.caller 5, some 9⟩)
          (some 9) none).op = OpType.OpShardAcquire ∧
      (⟨none, false, none,
          ⟨ShardState.ShardStateErrored, some (GoErr.base "old"), false, 0⟩,
          none, none⟩ : Env).reloadErr = none ∧
      (⟨none, false, none,
          ⟨ShardState.ShardStateErrored, some (GoErr.base "old"), false, 0⟩,
          none, none⟩ : Env).reloaded.state = ShardState.ShardStateErrored ∧
      (⟨"k", ShardState.ShardStateErrored, some (GoErr.base "old"), false, 0,
          none, none, [], true⟩ : Shard).recoverOnNextAcquire = true ∧
      controlSwitch ⟨Ctx.caller 0, false, false⟩
          ⟨none, false, none,
            ⟨ShardState.ShardStateErrored, some (GoErr.base "old"), false, 0⟩,
            none, none⟩
          (mkTask OpType.OpShardAcquire (Ctx.caller 5)
            (some ⟨Ctx.caller 5, some 9⟩) (some 9) none)
          ⟨"k", ShardState.ShardStateErrored, some (GoErr.base "old"), false, 0,
            none, none, [], true⟩ =
        (⟨"k", ShardState.ShardStateErrored, some (GoErr.base "old"), false, 0,
            none, none, [⟨Ctx.caller 5, some 9⟩], false⟩,
          true,
          [Effect.enqueueInternal
            (mkTask OpType.OpShardRecover Ctx.nil (some ⟨Ctx.caller 0, none⟩)
              none none)]) :=
  ⟨rfl, rfl, rfl, rfl,
    ((opShardAcquire_recover_flag_spec ⟨Ctx.caller 0, false, false⟩
      ⟨none, false, none,
        ⟨ShardState.ShardStateErrored, some (GoErr.base "old"), false, 0⟩,
        none, none⟩
      (mkTask OpType.OpShardAcquire (Ctx.caller 5)
        (some ⟨Ctx.caller 5, some 9⟩) (some 9) none)
      ⟨"k", ShardState.ShardStateErrored, some (GoErr.base "old"), false, 0,
        none, none, [], true⟩
      rfl rfl rfl rfl).1)⟩

/-- Helper: the persist flag survives every branch except OpShardDestroy and
the reload failures of OpShardAcquire and OpShardRecover. -/
theorem controlSwitch_persist_flag (d : DAGStore) (env : Env) (tsk : Task)
    (s : Shard) :
    (controlSwitch d env tsk s).2.1 = false ↔
      (tsk.op = OpType.OpShardDestroy ∨
        ((tsk.op = OpType.OpShardAcquire ∨ tsk.op = OpType.OpShardRecover) ∧
          env.reloadErr ≠ none)) := by
  obtain ⟨op, c, w, o, er⟩ := tsk
  cases op <;> rcases hrl : env.reloadErr with _ | e <;>
    rcases hdel : env.deleteErr with _ | de <;> rcases w with _ | w0 <;>
    simp [controlSwitch, hrl, hdel] <;> split_ifs <;> simp_all

/-- C8: for every consumed task the loop persists the post-transition record
exactly when the branch left the persist flag up, that is in every case but
OpShardDestroy and an OpShardAcquire or OpShardRecover whose reload failed;
the persistence write error the Env carries is logged only and has no
influence on the iteration. -/
theorem control_persist_spec (d : DAGStore) (env : Env) (tsk : Task)
    (s : Shard) :
    ((controlSwitch d env tsk s).2.1 = false ↔
      (tsk.op = OpType.OpShardDestroy ∨
        ((tsk.op = OpType.OpShardAcquire ∨ tsk.op = OpType.OpShardRecover) ∧
          env.reloadErr ≠ none))) ∧
    ((controlIter d env tsk s).2 =
      (controlSwitch d env tsk s).2.2 ++
        (if (controlSwitch d env tsk s).2.1 then
          [Effect.persistStore (controlSwitch d env tsk s).1] else []) ++
        (if d.traceCh then
          [Effect.traceSend ⟨(controlSwitch d env tsk s).1.key, tsk.op,
            (controlSwitch d env tsk s).1.state,
            (controlSwitch d env tsk s).1.err⟩] else [])) ∧
    (∀ (a : Option GoErr) (b : Bool) (c : Option GoErr) (p : Persisted)
        (de : Option GoErr) (p1 p2 : Option GoErr),
      controlIter d ⟨a, b, c, p, de, p1⟩ tsk s =
        controlIter d ⟨a, b, c, p, de, p2⟩ tsk s) := by
  refine ⟨controlSwitch_persist_flag d env tsk s, rfl, ?_⟩
  intro a b c p de p1 p2
  obtain ⟨op, cx, w, o, er⟩ := tsk
  cases op <;> rfl

/-- C1: the invariant that the error field is set exactly in the errored
state holds when the loop releases the shard lock, for every task: an
OpShardMakeAvailable sets state Available and error nil, an OpShardFail
sets state Errored and the task error (never nil for a Fail task), and
every other branch leaves state and error as they were, apart from the
spec-modelled reload of persisted fields in OpShardAcquire and
OpShardRecover, which per the spec is idempotent and only re-installs a
persisted post-transition snapshot satisfying the same invariant. -/
theorem control_err_iff_errored (d : DAGStore) (env : Env) (tsk : Task)
    (s : Shard) (hinv : errInv s)
    (hfail : tsk.op = OpType.OpShardFail → tsk.err ≠ none)
    (hper : errInvP env.reloaded) :
    errInv (controlSwitch d env tsk s).1 ∧
    (tsk.op = OpType.OpShardMakeAvailable →
      (controlSwitch d env tsk s).1.state = ShardState.ShardStateAvailable ∧
      (controlSwitch d env tsk s).1.err = none) ∧
    (tsk.op = OpType.OpShardFail →
      (controlSwitch d env tsk s).1.state = ShardState.ShardStateErrored ∧
      (controlSwitch d env tsk s).1.err = tsk.err) ∧
    (tsk.op ≠ OpType.OpShardMakeAvailable → tsk.op ≠ OpType.OpShardFail →
      (env.reloadErr = none →
        env.reloaded.state = s.state ∧ env.reloaded.err = s.err) →
      (controlSwitch d env tsk s).1.state = s.state ∧
      (controlSwitch d env tsk s).1.err = s.err) := by
  cases hop : tsk.op
  case OpShardRegister =>
    have h1 : (controlSwitch d env tsk s).1.state = s.state ∧
        (controlSwitch d env tsk s).1.err = s.err := by
      rcases hw : tsk.waiter with _ | w0 <;>
        simp only [controlSwitch, hop, hw] <;> split_ifs <;> exact ⟨rfl, rfl⟩
    refine ⟨?_, ?_, ?_, fun _ _ _ => h1⟩
    · unfold errInv at hinv ⊢
      rw [h1.1, h1.2]
      exact hinv
    · exact fun hx => nomatch hx
    · exact fun hx => nomatch hx
  case OpShardInitialize =>
    have h1 : (controlSwitch d env tsk s).1.state = s.state ∧
        (controlSwitch d env tsk s).1.err = s.err := by
      simp only [controlSwitch, hop]
      split_ifs <;> exact ⟨rfl, rfl⟩
    refine ⟨?_, ?_, ?_, fun _ _ _ => h1⟩
    · unfold errInv at hinv ⊢
      rw [h1.1, h1.2]
      exact hinv
    · exact fun hx => nomatch hx
    · exact fun hx => nomatch hx
  case OpShardMakeAvailable =>
    have h1 : (controlSwitch d env tsk s).1.state =
          ShardState.ShardStateAvailable ∧
        (controlSwitch d env tsk s).1.err = none := by
      constructor <;> simp [controlSwitch, hop]
    refine ⟨?_, fun _ => h1, ?_, fun hne _ _ => absurd rfl hne⟩
    · unfold errInv
      rw [h1.1, h1.2]
      exact ⟨fun hx => absurd rfl hx, fun hx => nomatch hx⟩
    · exact fun hx => nomatch hx
  case OpShardFail =>
    have h1 : (controlSwitch d env tsk s).1.state =
          ShardState.ShardStateErrored ∧
        (controlSwitch d env tsk s).1.err = tsk.err := by
      constructor <;> simp [controlSwitch, hop]
    refine ⟨?_, ?_, fun _ => h1, fun _ hne _ => absurd rfl hne⟩
    · unfold errInv
      rw [h1.1, h1.2]
      exact ⟨fun _ => rfl, fun _ => hfail hop⟩
    · exact fun hx => nomatch hx
  case OpShardAcquire =>
    rcases hrl : env.reloadErr with _ | e
    · have h1 : (controlSwitch d env tsk s).1.state = env.reloaded.state ∧
          (controlSwitch d env tsk s).1.err = env.reloaded.err := by
        simp only [controlSwitch, hop, hrl]
        split_ifs <;> exact ⟨rfl, rfl⟩
      refine ⟨?_, ?_, ?_, fun _ _ hid => ?_⟩
      · unfold errInv
        rw [h1.1, h1.2]
        exact hper
      · exact fun hx => nomatch hx
      · exact fun hx => nomatch hx
      · obtain ⟨hs, he⟩ := hid rfl
        rw [h1.1, h1.2, hs, he]
        exact ⟨rfl, rfl⟩
    · have h1 : (controlSwitch d env tsk s).1 = s := by
        simp only [controlSwitch, hop, hrl]
      refine ⟨?_, ?_, ?_, fun _ _ _ => by rw [h1]; exact ⟨rfl, rfl⟩⟩
      · unfold errInv at hinv ⊢
        rw [h1]
        exact hinv
      · exact fun hx => nomatch hx
      · exact fun hx => nomatch hx
  case OpShardRecover =>
    rcases hrl : env.reloadErr with _ | e
    · have h1 : (controlSwitch d env tsk s).1.state = env.reloaded.state ∧
          (controlSwitch d env tsk s).1.err = env.reloaded.err := by
        simp only [controlSwitch, hop, hrl]
        split_ifs <;> exact ⟨rfl, rfl⟩
      refine ⟨?_, ?_, ?_, fun _ _ hid => ?_⟩
      · unfold errInv
        rw [h1.1, h1.2]
        exact hper
      · exact fun hx => nomatch hx
      · exact fun hx => nomatch hx
      · obtain ⟨hs, he⟩ := hid rfl
        rw [h1.1, h1.2, hs, he]
        exact ⟨rfl, rfl⟩
    · have h1 : (controlSwitch d env tsk s).1 = s := by
        simp only [controlSwitch, hop, hrl]
      refine ⟨?_, ?_, ?_, fun _ _ _ => by rw [h1]; exact ⟨rfl, rfl⟩⟩
      · unfold errInv at hinv ⊢
        rw [h1]
        exact hinv
      · exact fun hx => nomatch hx
      · exact fun hx => nomatch hx
  case OpShardDestroy =>
    have h1 : (controlSwitch d env tsk s).1 = s := by
      rcases hdel : env.deleteErr with _ | de <;>
        simp only [controlSwitch, hop, hdel] <;> split_ifs <;> rfl
    refine ⟨?_, ?_, ?_, fun _ _ _ => by rw [h1]; exact ⟨rfl, rfl⟩⟩
    · unfold errInv at hinv ⊢
      rw [h1]
      exact hinv
    · exact fun hx => nomatch hx
    · exact fun hx => nomatch hx

theorem control_err_iff_errored_witness :
    errInv ⟨"k", ShardState.ShardStateErrored, some (GoErr.base "boom"), false,
        0, none, none, [], false⟩ ∧
      ((mkTask OpType.OpShardMakeAvailable Ctx.nil none none none).op =
          OpType.OpShardFail →
        (mkTask OpType.OpShardMakeAvailable Ctx.nil none none none).err ≠
          none) ∧
      errInvP ⟨ShardState.ShardStateErrored, some (GoErr.base "boom"), false,
        0⟩ ∧
      errInv (controlSwitch ⟨Ctx.caller 0, false, false⟩
        ⟨none, false, none,
          ⟨ShardState.ShardStateErrored, some (GoErr.base "boom"), false, 0⟩,
          none, none⟩
        (mkTask OpType.OpShardMakeAvailable Ctx.nil none none none)
        ⟨"k", ShardState.ShardStateErrored, some (GoErr.base "boom"), false, 0,
          none, none, [], false⟩).1 :=
  ⟨by decide, by decide, by decide,
    (control_err_iff_errored ⟨Ctx.caller 0, false, false⟩
      ⟨none, false, none,
        ⟨ShardState.ShardStateErrored, some (GoErr.base "boom"), false, 0⟩,
        none, none⟩
      (mkTask OpType.OpShardMakeAvailable Ctx.nil none none none)
      ⟨"k", ShardState.ShardStateErrored, some (GoErr.base "boom"), false, 0,
        none, none, [], false⟩
      (by decide) (by decide) (by decide)).1⟩

/-- Boolean discriminator: is this effect a result dispatch to waiters. -/
def Effect.isDispatch : Effect → Bool
  | .dispatch _ _ => true
  | _ => false

/-- Concrete DAGStore configuration for the recovery-waiter scenario. -/
def c2d : DAGStore := ⟨Ctx.caller 0, false, false⟩

/-- Waiter parked by a first OpShardRecover. -/
def c2w1 : Waiter := ⟨Ctx.caller 1, some 1⟩

/-- Waiter of a second OpShardRecover admitted while still Errored. -/
def c2w2 : Waiter := ⟨Ctx.caller 2, some 2⟩

/-- Errored shard holding the first recovery waiter in wRecover. -/
def c2s : Shard :=
  ⟨"k", ShardState.ShardStateErrored, some (GoErr.base "boom"), false, 0,
    none, some c2w1, [], false⟩

/-- Oracle: the reload succeeds and returns the same errored snapshot. -/
def c2env : Env :=
  ⟨none, false, none,
    ⟨ShardState.ShardStateErrored, some (GoErr.base "boom"), false, 0⟩,
    none, none⟩

/-- The second external OpShardRecover task. -/
def c2tsk : Task := mkTask OpType.OpShardRecover (Ctx.caller 2) (some c2w2)
  (some 2) none

/-- C2, counterexample: a second OpShardRecover consumed while the shard is
still Errored overwrites the already-parked recovery waiter; the displaced
waiter receives no dispatched result in this iteration (the only effects are
the spawned initializer and the persistence write), so it is silently
discarded, against the claim. -/
theorem opShardRecover_discards_waiter_cex :
    c2s.wRecover = some c2w1 ∧ c2w1 ≠ c2w2 ∧
      (controlSwitch c2d c2env c2tsk c2s).1.wRecover = some c2w2 ∧
      (∀ ef ∈ (controlIter c2d c2env c2tsk c2s).2,
        Effect.isDispatch ef = false) := by
  decide

/-- C2, amended: an OpShardRecover that passes the reload and the Errored
precondition parks its own waiter by overwriting wRecover; when a recovery
waiter was already parked it is replaced without any dispatched reply (the
iteration dispatches nothing at all), so a waiter handed to the loop can be
dropped without a reply in exactly this situation. -/
theorem opShardRecover_replaces_parked_waiter (d : DAGStore) (env : Env)
    (tsk : Task) (s : Shard) (w0 : Waiter)
    (hop : tsk.op = OpType.OpShardRecover)
    (hrl : env.reloadErr = none)
    (hst : env.reloaded.state = ShardState.ShardStateErrored)
    (hw : s.wRecover = some w0) :
    (controlSwitch d env tsk s).1.wRecover = tsk.waiter ∧
      (controlSwitch d env tsk s).2.2 = [Effect.spawnInitialize tsk.ctx] ∧
      (∀ ef ∈ (controlIter d env tsk s).2, Effect.isDispatch ef = false) := by
  obtain ⟨op, c, w, o, er⟩ := tsk
  cases hop
  obtain ⟨dc, fch, tch⟩ := d
  have hsw : controlSwitch ⟨dc, fch, tch⟩ env ⟨OpType.OpShardRecover, c, w, o, er⟩ s =
      ({ applyReload s env.reloaded with wRecover := w }, true,
        [Effect.spawnInitialize c]) := by
    simp [controlSwitch, hrl, applyReload, hst]
  refine ⟨by rw [hsw], by rw [hsw], ?_⟩
  intro ef hef
  simp only [controlIter, hsw] at hef
  rcases tch
  · simp at hef
    rcases hef with h | h <;> simp [h, Effect.isDispatch]
  · simp at hef
    rcases hef with h | h | h <;> simp [h, Effect.isDispatch]

theorem opShardRecover_replaces_parked_waiter_witness :
    c2tsk.op = OpType.OpShardRecover ∧ c2env.reloadErr = none ∧
      c2env.reloaded.state = ShardState.ShardStateErrored ∧
      c2s.wRecover = some c2w1 ∧
      (controlSwitch c2d c2env c2tsk c2s).1.wRecover = c2tsk.waiter :=
  ⟨rfl, rfl, rfl, rfl,
    (opShardRecover_replaces_parked_waiter c2d c2env c2tsk c2s c2w1
      rfl rfl rfl rfl).1⟩

/-- Concrete DAGStore configuration for the destroy scenario. -/
def c6d : DAGStore := ⟨Ctx.caller 0, false, false⟩

/-- Available shard to destroy. -/
def c6s : Shard :=
  ⟨"k", ShardState.ShardStateAvailable, none, false, 0, none, none, [], false⟩

/-- Oracle: the metadata-store delete succeeds (no error at all). -/
def c6env : Env :=
  ⟨none, false, none, ⟨ShardState.ShardStateAvailable, none, false, 0⟩,
    none, none⟩

/-- The external OpShardDestroy task with a caller waiter attached. -/
def c6tsk : Task := mkTask OpType.OpShardDestroy (Ctx.caller 3)
  (some ⟨Ctx.caller 3, some 7⟩) (some 7) none

/-- C6, counterexample: a Destroy whose delete succeeds dispatches nothing:
the caller waiter attached to the task receives no success result (the only
effect of the iteration is the store delete), against the claim that a
successful Destroy delivers a success reply with the key. -/
theorem opShardDestroy_no_success_reply_cex :
    c6env.deleteErr = none ∧ c6tsk.waiter = some ⟨Ctx.caller 3, some 7⟩ ∧
      (controlIter c6d c6env c6tsk c6s).2 = [Effect.deleteStore "k"] ∧
      (∀ ef ∈ (controlIter c6d c6env c6tsk c6s).2,
        Effect.isDispatch ef = false) := by
  decide

/-- C6, amended: a Destroy that succeeds, including when the delete reports
not-found (treated as success), replies nothing to the caller waiter and
leaves the record untouched with persistence skipped; only on another
deletion error is the wrapped error replied to the waiter. -/
theorem opShardDestroy_spec (d : DAGStore) (env : Env) (tsk : Task)
    (s : Shard) (hop : tsk.op = OpType.OpShardDestroy) :
    (controlSwitch d env tsk s).1 = s ∧
      (controlSwitch d env tsk s).2.1 = false ∧
      ((env.deleteErr = none ∨
          (∃ e, env.deleteErr = some e ∧ GoErr.is e GoErr.errNotFound = true)) →
        (controlSwitch d env tsk s).2.2 = [Effect.deleteStore s.key]) ∧
      (∀ e, env.deleteErr = some e → GoErr.is e GoErr.errNotFound = false →
        (controlSwitch d env tsk s).2.2 =
          [Effect.deleteStore s.key,
            Effect.dispatch
              (mkResult s.key (some (GoErr.wrap "failed to delete shard" e)))
              tsk.waiter.toList]) := by
  obtain ⟨op, c, w, o, er⟩ := tsk
  cases hop
  rcases hdel : env.deleteErr with _ | de
  · refine ⟨by simp [controlSwitch, hdel], by simp [controlSwitch, hdel], ?_, ?_⟩
    · intro _
      simp [controlSwitch, hdel]
    · intro e he
      exact nomatch he
  · by_cases hnf : GoErr.is de GoErr.errNotFound = true
    · refine ⟨by simp [controlSwitch, hdel, hnf], by simp [controlSwitch, hdel, hnf],
        fun _ => by simp [controlSwitch, hdel, hnf], ?_⟩
      intro e he hf
      cases he
      simp [hnf] at hf
    · rw [Bool.not_eq_true] at hnf
      refine ⟨by simp [controlSwitch, hdel, hnf], by simp [controlSwitch, hdel, hnf],
        ?_, ?_⟩
      · rintro (hn | ⟨e, he, ht⟩)
        · exact nomatch hn
        · cases he
          simp [hnf] at ht
      · intro e he _
        cases he
        simp [controlSwitch, hdel, hnf]

theorem opShardDestroy_spec_witness :
    (mkTask OpType.OpShardDestroy (Ctx.caller 3) (some ⟨Ctx.caller 3, some 7⟩)
        (some 7) none).op = OpType.OpShardDestroy ∧
      (controlSwitch c6d c6env
        (mkTask OpType.OpShardDestroy (Ctx.caller 3)
          (some ⟨Ctx.caller 3, some 7⟩) (some 7) none) c6s).1 = c6s :=
  ⟨rfl,
    (opShardDestroy_spec c6d c6env
      (mkTask OpType.OpShardDestroy (Ctx.caller 3)
        (some ⟨Ctx.caller 3, some 7⟩) (some 7) none) c6s rfl).1⟩

/-- C5: consumeNext gives the internal channel strict priority and makes
shutdown always observable: a task consumed from the external or completion
channel is only possible when the internal channel was empty and the context
not yet done (the blocking second select is reached only through the default
branch of the first), the head of a nonempty internal channel is always
consumable by the first, non-blocking select, and a done context always
admits the cancellation-error outcome. -/
theorem consumeNext_priority_spec :
    (∀ (c : Chans) (tag : ChanTag) (t : Task),
      ConsumeNext c (ConsumeResult.got tag t) → tag ≠ ChanTag.internal →
        c.internalCh = [] ∧ c.ctxDone = false) ∧
    (∀ (c : Chans) (t : Task) (rest : List Task),
      c.internalCh = t :: rest →
        ConsumeNext c (ConsumeResult.got ChanTag.internal t)) ∧
    (∀ c : Chans, c.ctxDone = true → ConsumeNext c ConsumeResult.cancelErr) := by
  refine ⟨?_, ?_, ?_⟩
  · intro c tag t h hne
    cases h with
    | internalReady _ _ h1 => exact absurd rfl hne
    | externalReady _ _ hInt hDone h1 => exact ⟨hInt, hDone⟩
    | completionReady _ _ hInt hDone h1 => exact ⟨hInt, hDone⟩
  · intro c t rest h
    exact ConsumeNext.internalReady c t rest h
  · intro c h
    exact ConsumeNext.doneFirst c h

end DagStore
